import Mathlib

/-!
Shallow embedding of the FastAPI todo backend
(models/todo.py, controllers/todo.py, routes/todo.py, middlewares/logger.py).

The relational store is modelled as an explicit state value threaded through
every operation.  Timestamps are natural-number instants; every call the
source makes to `datetime.utcnow()` or `time.time()` becomes an explicit
clock parameter, one parameter per call site, in source order.
-/

/-- Persisted `todos` row (models/todo.py, class `Todo`).
The `title` column is `Column(String, index=True)` with no `nullable=False`,
so at the store level it is nullable and is modelled as `Option String`;
`description` is declared `nullable=True`. -/
structure Todo where
  id : Nat
  title : Option String
  description : Option String
  created_at : Nat
  updated_at : Nat
deriving DecidableEq, Repr

/-- Pydantic `TodoCreate`: `title : str` required, `description : str | None = None`. -/
structure TodoCreate where
  title : String
  description : Option String := none
deriving DecidableEq, Repr

/-- Pydantic `TodoUpdate` together with its exclude-unset information:
the outer `Option` records whether the field was present in the payload
(`todo.dict(exclude_unset=True)` keeps exactly the present fields), and the
inner `Option String` is the value sent, which may itself be an explicit
`null` because the field type is `str | None`. -/
structure TodoUpdate where
  title : Option (Option String) := none
  description : Option (Option String) := none
deriving DecidableEq, Repr

/-- Pydantic `TodoResponse`: `title : str` is not optional. -/
structure TodoResponse where
  id : Nat
  title : String
  description : Option String
  created_at : Nat
  updated_at : Nat
deriving DecidableEq, Repr

/-- `TodoResponse.from_orm(row)`: pydantic validates the row against the
response model; a row whose `title` is null fails validation (the field is
`str`), which the source does not catch, so the result is `none` and the
caller observes an unhandled fault. -/
def fromOrm (r : Todo) : Option TodoResponse :=
  match r.title with
  | some t => some ⟨r.id, t, r.description, r.created_at, r.updated_at⟩
  | none => none

/-- The `todos` table plus the auto-increment counter of the integer
primary key. -/
structure DB where
  rows : List Todo
  nextId : Nat
deriving DecidableEq, Repr

/-- Freshly created store (after `Base.metadata.create_all`). -/
def DB.empty : DB := ⟨[], 1⟩

/-- Outcome of a controller call: a normal return value, or an unhandled
exception escaping the controller (for example a pydantic ValidationError
raised by `from_orm`). -/
inductive CtrlResult (α : Type) where
  | ok : α → CtrlResult α
  | fault : CtrlResult α
deriving DecidableEq, Repr

/-- controllers/todo.py `create_todo`: builds the row with two separate
`datetime.utcnow()` calls (`t1` for `created_at`, `t2` for `updated_at`),
inserts it, and returns `TodoResponse.from_orm` of the refreshed row.
The response is built directly because the fresh row always has
`title = some todo.title`, so `from_orm` cannot fail here. -/
def create_todo (t1 t2 : Nat) (todo : TodoCreate) (db : DB) : DB × TodoResponse :=
  let row : Todo := ⟨db.nextId, some todo.title, todo.description, t1, t2⟩
  (⟨db.rows ++ [row], db.nextId + 1⟩, ⟨db.nextId, todo.title, todo.description, t1, t2⟩)

/-- controllers/todo.py `get_all_todos`: `db.query(Todo).all()` then
`from_orm` on each row; a row failing response validation raises. -/
def get_all_todos (db : DB) : DB × CtrlResult (List TodoResponse) :=
  (db,
    match db.rows.mapM fromOrm with
    | some l => .ok l
    | none => .fault)

/-- controllers/todo.py `get_todo_by_id`:
`db.query(Todo).filter(Todo.id == todo_id).first()`; `None` when no row
matches, otherwise `from_orm` of the row. -/
def get_todo_by_id (todo_id : Nat) (db : DB) : DB × CtrlResult (Option TodoResponse) :=
  (db,
    match db.rows.find? (fun r => r.id == todo_id) with
    | none => .ok none
    | some r =>
      match fromOrm r with
      | some resp => .ok (some resp)
      | none => .fault)

/-- The `setattr` loop of `update_todo`: apply each field present in
`todo.dict(exclude_unset=True)`, then `updated_at = now`. -/
def applyUpdate (upd : TodoUpdate) (now : Nat) (r : Todo) : Todo :=
  let r1 := match upd.title with
    | none => r
    | some v => { r with title := v }
  let r2 := match upd.description with
    | none => r1
    | some v => { r1 with description := v }
  { r2 with updated_at := now }

/-- controllers/todo.py `update_todo`: look the row up by id; `None` when
absent; otherwise apply the exclude-unset payload plus `updated_at = now`,
commit, and return `from_orm` of the refreshed row.  The commit happens
before `from_orm`, so the store is updated even when response validation
then raises. -/
def update_todo (now todo_id : Nat) (upd : TodoUpdate) (db : DB) :
    DB × CtrlResult (Option TodoResponse) :=
  match db.rows.find? (fun r => r.id == todo_id) with
  | none => (db, .ok none)
  | some r =>
    let r2 := applyUpdate upd now r
    let db2 : DB := ⟨db.rows.map (fun x => if x.id == todo_id then r2 else x), db.nextId⟩
    (db2,
      match fromOrm r2 with
      | some resp => .ok (some resp)
      | none => .fault)

/-- controllers/todo.py `delete_todo`: look the row up by id; `False` when
absent; otherwise remove the row and return `True`. -/
def delete_todo (todo_id : Nat) (db : DB) : DB × Bool :=
  match db.rows.find? (fun r => r.id == todo_id) with
  | none => (db, false)
  | some _ => (⟨db.rows.filter (fun r => !(r.id == todo_id)), db.nextId⟩, true)

/-- Outcome visible at the route layer: a success body, an
`HTTPException(status_code, detail)`, or an unhandled fault. -/
inductive RouteResult (α : Type) where
  | ok : α → RouteResult α
  | httpError : Nat → String → RouteResult α
  | fault : RouteResult α
deriving DecidableEq, Repr

/-- routes/todo.py `get_todo_route`: 404 `"Todo not found"` when the
controller returns `None`. -/
def get_todo_route (todo_id : Nat) (db : DB) : DB × RouteResult TodoResponse :=
  let out := get_todo_by_id todo_id db
  (out.1,
    match out.2 with
    | .ok none => .httpError 404 "Todo not found"
    | .ok (some t) => .ok t
    | .fault => .fault)

/-- routes/todo.py `update_todo_route`: 404 `"Todo not found"` when the
controller returns `None`. -/
def update_todo_route (now todo_id : Nat) (upd : TodoUpdate) (db : DB) :
    DB × RouteResult TodoResponse :=
  let out := update_todo now todo_id upd db
  (out.1,
    match out.2 with
    | .ok none => .httpError 404 "Todo not found"
    | .ok (some t) => .ok t
    | .fault => .fault)

/-- routes/todo.py `delete_todo_route`: 404 `"Todo not found"` when the
controller returns `False`, otherwise the fixed confirmation message. -/
def delete_todo_route (todo_id : Nat) (db : DB) : DB × RouteResult String :=
  let out := delete_todo todo_id db
  (out.1,
    match out.2 with
    | false => .httpError 404 "Todo not found"
    | true => .ok "Todo deleted successfully")

/-- One line emitted by `logger.info` in middlewares/logger.py: method,
path, and the measured duration (`time.time()` is wall clock, so the
difference is an integer here, not a natural). -/
structure LogRecord where
  method : String
  path : String
  duration : Int
deriving DecidableEq, Repr

/-- What `await call_next(request)` does: either returns a response
(HTTPException raised by a handler is already converted to an error
response by the inner exception middleware, so it arrives here as a
response) or propagates an unhandled exception. -/
inductive HandlerOutcome where
  | response : Nat → HandlerOutcome
  | exn : HandlerOutcome
deriving DecidableEq, Repr

/-- middlewares/logger.py `logging_middleware`: `t1` is the `time.time()`
read before `call_next`, `t2` the read after it.  There is no try/finally:
when `call_next` propagates an exception, the function exits before the
`logger.info` line, so no record is emitted for that request. -/
def logging_middleware (t1 t2 : Nat) (method path : String)
    (downstream : HandlerOutcome) : List LogRecord × HandlerOutcome :=
  match downstream with
  | .response s => ([⟨method, path, (t2 : Int) - (t1 : Int)⟩], .response s)
  | .exn => ([], .exn)

/-- Data-model invariant of section 3 of the spec:
`updated_at >= created_at` on every persisted row. -/
def TimestampInv (db : DB) : Prop :=
  ∀ r ∈ db.rows, r.created_at ≤ r.updated_at

/-- A concrete store holding one todo (id 1, title "A", no description,
both timestamps 0), used to instantiate the theorems below. -/
def sampleDB : DB := ⟨[⟨1, some "A", none, 0, 0⟩], 2⟩

theorem applyUpdate_id (upd : TodoUpdate) (now : Nat) (r : Todo) :
    (applyUpdate upd now r).id = r.id := by
  rcases upd with ⟨t, d⟩
  cases t <;> cases d <;> rfl

theorem applyUpdate_created_at (upd : TodoUpdate) (now : Nat) (r : Todo) :
    (applyUpdate upd now r).created_at = r.created_at := by
  rcases upd with ⟨t, d⟩
  cases t <;> cases d <;> rfl

theorem applyUpdate_updated_at (upd : TodoUpdate) (now : Nat) (r : Todo) :
    (applyUpdate upd now r).updated_at = now := by
  rcases upd with ⟨t, d⟩
  cases t <;> cases d <;> rfl

theorem applyUpdate_title_of_unset (upd : TodoUpdate) (now : Nat) (r : Todo)
    (h : upd.title = none) : (applyUpdate upd now r).title = r.title := by
  rcases upd with ⟨t, d⟩
  simp only at h
  subst h
  cases d <;> rfl

theorem applyUpdate_description_of_unset (upd : TodoUpdate) (now : Nat) (r : Todo)
    (h : upd.description = none) :
    (applyUpdate upd now r).description = r.description := by
  rcases upd with ⟨t, d⟩
  simp only at h
  subst h
  cases t <;> rfl

theorem find_map_replace_hit (l : List Todo) (i : Nat) (r2 : Todo) (h : r2.id = i) :
    (l.map (fun x => if x.id == i then r2 else x)).find? (fun x => x.id == i)
      = (l.find? (fun x => x.id == i)).map (fun _ => r2) := by
  induction l with
  | nil => rfl
  | cons a t ih =>
    rw [List.map_cons]
    by_cases ha : a.id = i
    · have h1 : (if a.id == i then r2 else a) = r2 := by simp [ha]
      rw [h1, List.find?_cons_of_pos _ (by simp [h]),
        List.find?_cons_of_pos _ (by simp [ha])]
      rfl
    · have h1 : (if a.id == i then r2 else a) = a := by simp [ha]
      rw [h1, List.find?_cons_of_neg _ (by simp [ha]),
        List.find?_cons_of_neg _ (by simp [ha]), ih]

theorem find_map_replace_miss (l : List Todo) (i j : Nat) (r2 : Todo) (h : r2.id = i)
    (hne : j ≠ i) :
    (l.map (fun x => if x.id == i then r2 else x)).find? (fun x => x.id == j)
      = l.find? (fun x => x.id == j) := by
  induction l with
  | nil => rfl
  | cons a t ih =>
    rw [List.map_cons]
    by_cases ha : a.id = i
    · have h1 : (if a.id == i then r2 else a) = r2 := by simp [ha]
      have hr2j : ¬ ((fun x : Todo => x.id == j) r2 = true) := by
        simp only [h, beq_iff_eq]
        exact fun hij => hne hij.symm
      have haj : ¬ ((fun x : Todo => x.id == j) a = true) := by
        simp only [ha, beq_iff_eq]
        exact fun hij => hne hij.symm
      rw [h1, List.find?_cons_of_neg (p := fun x : Todo => x.id == j) _ hr2j,
        List.find?_cons_of_neg (p := fun x : Todo => x.id == j) _ haj, ih]
    · have h1 : (if a.id == i then r2 else a) = a := by simp [ha]
      rw [h1]
      by_cases haj : ((fun x : Todo => x.id == j) a = true)
      · rw [List.find?_cons_of_pos (p := fun x : Todo => x.id == j) _ haj,
          List.find?_cons_of_pos (p := fun x : Todo => x.id == j) _ haj]
      · rw [List.find?_cons_of_neg (p := fun x : Todo => x.id == j) _ haj,
          List.find?_cons_of_neg (p := fun x : Todo => x.id == j) _ haj, ih]

theorem find_filter_out (l : List Todo) (i : Nat) :
    (l.filter (fun r => !(r.id == i))).find? (fun r => r.id == i) = none := by
  rw [List.find?_eq_none]
  intro x hx
  have hmem := List.mem_filter.mp hx
  simpa using hmem.2

theorem update_preserves_field {α : Type} (now todo_id : Nat) (upd : TodoUpdate)
    (db : DB) (f : Todo → α) (hf : ∀ r, f (applyUpdate upd now r) = f r) (j : Nat) :
    ((update_todo now todo_id upd db).1.rows.find? (fun r => r.id == j)).map f
      = (db.rows.find? (fun r => r.id == j)).map f := by
  unfold update_todo
  cases hfind : db.rows.find? (fun r => r.id == todo_id) with
  | none => rfl
  | some r =>
    have hid : r.id = todo_id := by simpa using List.find?_some hfind
    by_cases hj : j = todo_id
    · subst hj
      show ((db.rows.map fun x => if x.id == j then applyUpdate upd now r else x).find?
        (fun x => x.id == j)).map f = _
      rw [find_map_replace_hit db.rows j (applyUpdate upd now r)
        (by rw [applyUpdate_id]; exact hid)]
      rw [hfind]
      simp [hf]
    · show ((db.rows.map fun x => if x.id == todo_id then applyUpdate upd now r else x).find?
        (fun x => x.id == j)).map f = _
      rw [find_map_replace_miss db.rows todo_id j (applyUpdate upd now r)
        (by rw [applyUpdate_id]; exact hid) hj]

/-- C1: the claim says the title of a persisted row is never null after any
sequence of create, update and delete calls.  The code violates it:
`TodoUpdate.title` has type `str | None`, so a payload carrying an explicit
`title: null` survives `exclude_unset` and `setattr` stores NULL in the
nullable `title` column; the commit persists it, and the subsequent
`from_orm` then raises because `TodoResponse.title` is `str`.  Concretely:
create a todo, then update it with an explicit null title — the persisted
row has a null title and the controller faults. -/
theorem update_null_title_persists_null :
    (((update_todo 5 1 ⟨some none, none⟩
        (create_todo 0 0 ⟨"A", none⟩ DB.empty).1).1.rows.find?
        (fun r => r.id == 1)).map Todo.title = some none)
    ∧ (update_todo 5 1 ⟨some none, none⟩
        (create_todo 0 0 ⟨"A", none⟩ DB.empty).1).2 = .fault := by
  exact ⟨rfl, rfl⟩

/-- C2: a field absent from the update payload is left untouched on every
persisted row — in particular an update supplying only `description`
leaves every title unchanged, and omission is never reinterpreted as
setting the field to null. -/
theorem update_omitted_field_untouched (now todo_id : Nat) (upd : TodoUpdate)
    (db : DB) :
    (upd.title = none → ∀ j,
      ((update_todo now todo_id upd db).1.rows.find? (fun r => r.id == j)).map Todo.title
        = (db.rows.find? (fun r => r.id == j)).map Todo.title)
    ∧ (upd.description = none → ∀ j,
      ((update_todo now todo_id upd db).1.rows.find? (fun r => r.id == j)).map
          Todo.description
        = (db.rows.find? (fun r => r.id == j)).map Todo.description) := by
  constructor
  · intro ht j
    exact update_preserves_field now todo_id upd db Todo.title
      (fun r => applyUpdate_title_of_unset upd now r ht) j
  · intro hd j
    exact update_preserves_field now todo_id upd db Todo.description
      (fun r => applyUpdate_description_of_unset upd now r hd) j

theorem update_omitted_field_untouched_witness :
    ((update_todo 5 1 ⟨none, none⟩ sampleDB).1.rows.find? (fun r => r.id == 1)).map
        Todo.title = some (some "A")
    ∧ ((update_todo 5 1 ⟨none, none⟩ sampleDB).1.rows.find? (fun r => r.id == 1)).map
        Todo.description = some none := by
  constructor
  · rw [(update_omitted_field_untouched 5 1 ⟨none, none⟩ sampleDB).1 rfl 1]
    rfl
  · rw [(update_omitted_field_untouched 5 1 ⟨none, none⟩ sampleDB).2 rfl 1]
    rfl

/-- C3: when no persisted row has the requested id, the get, update and
delete routes each answer with the 404 error carrying the fixed detail
message "Todo not found", never with a fault. -/
theorem not_found_routes (now todo_id : Nat) (upd : TodoUpdate) (db : DB)
    (h : db.rows.find? (fun r => r.id == todo_id) = none) :
    (get_todo_route todo_id db).2 = .httpError 404 "Todo not found"
    ∧ (update_todo_route now todo_id upd db).2 = .httpError 404 "Todo not found"
    ∧ (delete_todo_route todo_id db).2 = .httpError 404 "Todo not found" := by
  refine ⟨?_, ?_, ?_⟩ <;>
    simp [get_todo_route, update_todo_route, delete_todo_route,
      get_todo_by_id, update_todo, delete_todo, h]

theorem not_found_routes_witness :
    (get_todo_route 7 sampleDB).2 = .httpError 404 "Todo not found"
    ∧ (update_todo_route 0 7 ⟨none, none⟩ sampleDB).2 = .httpError 404 "Todo not found"
    ∧ (delete_todo_route 7 sampleDB).2 = .httpError 404 "Todo not found" :=
  not_found_routes 0 7 ⟨none, none⟩ sampleDB rfl

/-- C4 counterexample: `create_todo` reads the clock twice
(`datetime.utcnow()` once for `created_at` and once for `updated_at`), so
when the two reads differ the created todo does not satisfy
`created_at = updated_at`. -/
theorem create_clock_reads_differ :
    ¬ ((create_todo 0 1 ⟨"A", none⟩ DB.empty).2.created_at
        = (create_todo 0 1 ⟨"A", none⟩ DB.empty).2.updated_at) := by
  decide

/-- C4 amended: in every case — whatever the two successive clock reads
return — the created todo has the generated next id, the supplied title,
and the supplied description (so no description gives a null
description), with `created_at` the first read and `updated_at` the
second; whenever the two reads return the same instant it additionally
satisfies `created_at = updated_at`. -/
theorem create_same_instant_view (t1 t2 : Nat) (todo : TodoCreate) (db : DB) :
    (create_todo t1 t2 todo db).2.id = db.nextId
    ∧ (create_todo t1 t2 todo db).2.title = todo.title
    ∧ (create_todo t1 t2 todo db).2.description = todo.description
    ∧ (create_todo t1 t2 todo db).2.created_at = t1
    ∧ (create_todo t1 t2 todo db).2.updated_at = t2
    ∧ (t1 = t2 → (create_todo t1 t2 todo db).2.created_at
        = (create_todo t1 t2 todo db).2.updated_at) :=
  ⟨rfl, rfl, rfl, rfl, rfl, fun h => h⟩

theorem create_same_instant_view_witness :
    (create_todo 3 5 ⟨"A", none⟩ DB.empty).2.id = DB.empty.nextId
    ∧ (create_todo 3 5 ⟨"A", none⟩ DB.empty).2.description = none
    ∧ (create_todo 3 3 ⟨"A", none⟩ DB.empty).2.created_at
      = (create_todo 3 3 ⟨"A", none⟩ DB.empty).2.updated_at :=
  ⟨(create_same_instant_view 3 5 ⟨"A", none⟩ DB.empty).1,
   (create_same_instant_view 3 5 ⟨"A", none⟩ DB.empty).2.2.1,
   (create_same_instant_view 3 3 ⟨"A", none⟩ DB.empty).2.2.2.2.2 rfl⟩

/-- C5: updating an existing todo (whose title is non-null, as the data
model requires of well-formed rows) with zero fields supplied returns the
entity — not a not-found outcome — with `updated_at` refreshed to the
current time and title and description unchanged, and persists exactly
that refresh. -/
theorem update_zero_fields (now todo_id : Nat) (db : DB) (r : Todo) (s : String)
    (hfind : db.rows.find? (fun x => x.id == todo_id) = some r)
    (ht : r.title = some s) :
    (update_todo now todo_id ⟨none, none⟩ db).2
      = .ok (some ⟨r.id, s, r.description, r.created_at, now⟩)
    ∧ (update_todo now todo_id ⟨none, none⟩ db).1.rows.find? (fun x => x.id == todo_id)
      = some { r with updated_at := now } := by
  have hid : r.id = todo_id := by simpa using List.find?_some hfind
  have hr2 : applyUpdate ⟨none, none⟩ now r = { r with updated_at := now } := rfl
  constructor
  · unfold update_todo
    rw [hfind]
    simp only [hr2]
    simp [fromOrm, ht]
  · unfold update_todo
    rw [hfind]
    show (db.rows.map fun x =>
      if x.id == todo_id then applyUpdate ⟨none, none⟩ now r else x).find?
        (fun x => x.id == todo_id) = _
    rw [find_map_replace_hit db.rows todo_id (applyUpdate ⟨none, none⟩ now r)
      (by rw [applyUpdate_id]; exact hid)]
    rw [hfind]
    rfl

theorem update_zero_fields_witness :
    (update_todo 5 1 ⟨none, none⟩ sampleDB).2 = .ok (some ⟨1, "A", none, 0, 5⟩)
    ∧ (update_todo 5 1 ⟨none, none⟩ sampleDB).1.rows.find? (fun x => x.id == 1)
      = some ⟨1, some "A", none, 0, 5⟩ :=
  update_zero_fields 5 1 sampleDB ⟨1, some "A", none, 0, 0⟩ "A" rfl rfl

/-- C6 counterexample: `logging_middleware` has no try/finally around
`await call_next(request)`, so when the downstream chain propagates an
exception the function exits before `logger.info` and no record is
emitted — not the exactly-one record the claim demands for every request
regardless of outcome. -/
theorem middleware_exception_no_log :
    (logging_middleware 0 1 "GET" "/todos/1" HandlerOutcome.exn).1 = []
    ∧ ¬ ((logging_middleware 0 1 "GET" "/todos/1" HandlerOutcome.exn).1.length = 1) := by
  exact ⟨rfl, by decide⟩

/-- C6 amended: whenever the downstream chain returns a response —
including 404 and 422 error responses, which the inner exception
middleware has already converted into responses — exactly one log record
is emitted, carrying the method, the path, and a duration that is
non-negative provided the second clock read is not before the first; the
response is passed through unchanged.  When the downstream chain
propagates an exception no record is emitted. -/
theorem middleware_logs_once_on_response (t1 t2 : Nat) (m p : String) (s : Nat)
    (h : t1 ≤ t2) :
    (logging_middleware t1 t2 m p (.response s)).1
      = [⟨m, p, (t2 : Int) - (t1 : Int)⟩]
    ∧ 0 ≤ ((t2 : Int) - (t1 : Int))
    ∧ (logging_middleware t1 t2 m p (.response s)).2 = .response s := by
  refine ⟨rfl, ?_, rfl⟩
  have : (t1 : Int) ≤ (t2 : Int) := by exact_mod_cast h
  omega

theorem middleware_logs_once_on_response_witness :
    (logging_middleware 3 7 "GET" "/todos" (.response 200)).1
      = [⟨"GET", "/todos", (7 : Int) - (3 : Int)⟩]
    ∧ 0 ≤ ((7 : Int) - (3 : Int))
    ∧ (logging_middleware 3 7 "GET" "/todos" (.response 200)).2 = .response 200 :=
  middleware_logs_once_on_response 3 7 "GET" "/todos" 200 (by decide)

/-- C7: fetching by id straight after a create (no intervening mutation)
returns exactly the view the create call returned, provided the generated
id is fresh — no already-persisted row carries it, which is how the
auto-increment primary key behaves. -/
theorem get_after_create (t1 t2 : Nat) (todo : TodoCreate) (db : DB)
    (h : ∀ r ∈ db.rows, r.id ≠ db.nextId) :
    (get_todo_by_id (create_todo t1 t2 todo db).2.id (create_todo t1 t2 todo db).1).2
      = .ok (some (create_todo t1 t2 todo db).2) := by
  have hnone : db.rows.find? (fun r => r.id == db.nextId) = none := by
    rw [List.find?_eq_none]
    intro x hx
    simpa using h x hx
  unfold get_todo_by_id create_todo
  rw [List.find?_append, hnone]
  simp [fromOrm]

theorem get_after_create_witness :
    (get_todo_by_id (create_todo 4 4 ⟨"B", some "note"⟩ sampleDB).2.id
        (create_todo 4 4 ⟨"B", some "note"⟩ sampleDB).1).2
      = .ok (some (create_todo 4 4 ⟨"B", some "note"⟩ sampleDB).2) :=
  get_after_create 4 4 ⟨"B", some "note"⟩ sampleDB (by simp [sampleDB])

/-- C8: when `delete_todo` reports `true` (the row was removed), a
subsequent `get_todo_by_id` on the same id, with no intervening create,
yields the not-found outcome — the deletion is hard. -/
theorem get_after_delete (todo_id : Nat) (db : DB)
    (h : (delete_todo todo_id db).2 = true) :
    (get_todo_by_id todo_id (delete_todo todo_id db).1).2 = .ok none := by
  unfold get_todo_by_id delete_todo
  cases hfind : db.rows.find? (fun r => r.id == todo_id) with
  | none => simp [hfind]
  | some r =>
    simp only [hfind]
    rw [find_filter_out]

theorem get_after_delete_witness :
    (get_todo_by_id 1 (delete_todo 1 sampleDB).1).2 = .ok none :=
  get_after_delete 1 sampleDB rfl

/-- C9: `updated_at >= created_at` is preserved by create (under the two
clock reads being in order) and by update (under the clock not running
behind any persisted creation instant), and `created_at` never changes:
update leaves every row at its original `created_at`, and create leaves
all pre-existing rows untouched. -/
theorem timestamps_invariant (t1 t2 now todo_id : Nat) (todo : TodoCreate)
    (upd : TodoUpdate) (db : DB) :
    (TimestampInv db → t1 ≤ t2 → TimestampInv (create_todo t1 t2 todo db).1)
    ∧ (TimestampInv db → (∀ r ∈ db.rows, r.created_at ≤ now) →
        TimestampInv (update_todo now todo_id upd db).1)
    ∧ (∀ j, ((update_todo now todo_id upd db).1.rows.find? (fun r => r.id == j)).map
          Todo.created_at
        = (db.rows.find? (fun r => r.id == j)).map Todo.created_at)
    ∧ (∀ r ∈ db.rows, r ∈ (create_todo t1 t2 todo db).1.rows) := by
  refine ⟨?_, ?_, ?_, ?_⟩
  · intro hinv hcl x hx
    rcases List.mem_append.mp hx with hold | hnew
    · exact hinv x hold
    · rcases List.mem_singleton.mp hnew with rfl
      exact hcl
  · intro hinv hcl
    unfold update_todo
    cases hfind : db.rows.find? (fun r => r.id == todo_id) with
    | none => exact hinv
    | some r =>
      intro x hx
      rcases List.mem_map.mp hx with ⟨y, hy, hxy⟩
      by_cases hyi : (y.id == todo_id) = true
      · rw [if_pos hyi] at hxy
        subst hxy
        rw [applyUpdate_created_at, applyUpdate_updated_at]
        exact hcl r (List.mem_of_find?_eq_some hfind)
      · rw [if_neg hyi] at hxy
        subst hxy
        exact hinv y hy
  · intro j
    exact update_preserves_field now todo_id upd db Todo.created_at
      (fun r => applyUpdate_created_at upd now r) j
  · intro r hr
    exact List.mem_append.mpr (Or.inl hr)

theorem timestamps_invariant_witness :
    TimestampInv (create_todo 0 1 ⟨"B", none⟩ sampleDB).1
    ∧ TimestampInv (update_todo 5 1 ⟨none, none⟩ sampleDB).1 :=
  ⟨(timestamps_invariant 0 1 5 1 ⟨"B", none⟩ ⟨none, none⟩ sampleDB).1
      (by simp [TimestampInv, sampleDB]) (by decide),
   (timestamps_invariant 0 1 5 1 ⟨"B", none⟩ ⟨none, none⟩ sampleDB).2.1
      (by simp [TimestampInv, sampleDB]) (by simp [sampleDB])⟩

/-- C10: the read operations `get_all_todos` and `get_todo_by_id` return
the store exactly as they received it — no row modified, added or
removed. -/
theorem reads_leave_store_unchanged (todo_id : Nat) (db : DB) :
    (get_all_todos db).1 = db ∧ (get_todo_by_id todo_id db).1 = db :=
  ⟨rfl, rfl⟩
